import Mathlib

/-!
Verification of the `libvin` VIN decoder (`libvin/decoding.py`).

Python strings are embedded as `List Char`; operations that can raise in
Python (`s[i]` indexing, dict lookup, `int(...)` conversion) return
`Except PyError`.  Slicing (`s[a:b]`, `s[-n:]`) is total in Python and is
embedded as total functions.  `str.upper()` is embedded as a per-character
uppercase map.

The static lookup tables live in `libvin/static.py`, which is imported by
the decoder but is not part of the sources available here; those tables are
modelled from the specification (marked `Modelled from the spec:` below).
All decoder logic is translated directly from `libvin/decoding.py`.
-/

set_option autoImplicit false

/-- Kinds of Python exception relevant to the decoder. -/
inductive PyError where
  | indexError
  | keyError
  | valueError
deriving DecidableEq

/-- Python `s.upper()` on a string, embedded per-character. -/
def pyUpper (s : List Char) : List Char := s.map Char.toUpper

/-- Python `s[i]` for a non-negative index: the character, or `IndexError`. -/
def pyIndex (s : List Char) (i : Nat) : Except PyError Char :=
  match s.get? i with
  | some c => Except.ok c
  | none => Except.error PyError.indexError

/-- Python `s[-n:]`: the last `n` characters (the whole string when shorter). -/
def lastN (s : List Char) (n : Nat) : List Char := s.drop (s.length - n)

/-- Python `int(c)` for a single character: its digit value, or `ValueError`. -/
def pyIntOfChar (c : Char) : Except PyError Nat :=
  if c.isDigit then Except.ok (c.toNat - 48) else Except.error PyError.valueError

/-- Modelled from the spec: `VIN_WEIGHT` from the missing `libvin/static.py`,
the fixed positional weight table of the ISO 3779 check-digit computation
(17 entries, one per VIN position). -/
def VIN_WEIGHT : List Nat := [8, 7, 6, 5, 4, 3, 2, 10, 0, 9, 8, 7, 6, 5, 4, 3, 2]

/-- Modelled from the spec: the letter part of `VIN_TRANSLATION` from the
missing `libvin/static.py` - the ISO 3779 translation values of the 23
allowed letters (A-Z excluding I, O, Q). -/
def VIN_LETTER_VALUES : List (Char × Nat) :=
  [('A', 1), ('B', 2), ('C', 3), ('D', 4), ('E', 5), ('F', 6), ('G', 7), ('H', 8),
   ('J', 1), ('K', 2), ('L', 3), ('M', 4), ('N', 5), ('P', 7), ('R', 9),
   ('S', 2), ('T', 3), ('U', 4), ('V', 5), ('W', 6), ('X', 7), ('Y', 8), ('Z', 9)]

/-- Modelled from the spec: `VIN_TRANSLATION` from the missing
`libvin/static.py` as a partial map - 36 entries: the digits 0-9 map to
themselves, the letters A-Z excluding I, O, Q map to their ISO 3779 values;
any other character has no entry (a Python dict lookup raises `KeyError`). -/
def VIN_TRANSLATION (c : Char) : Option Nat :=
  if c.isDigit then some (c.toNat - 48)
  else (VIN_LETTER_VALUES.find? (fun p => p.1 == c)).map Prod.snd

/-- The 33-character checksum alphabet: digits and uppercase letters
excluding I, O, Q - exactly the domain of `VIN_TRANSLATION`. -/
def VIN_CHECKSUM_ALPHABET : List Char :=
  "0123456789ABCDEFGHJKLMNPRSTUVWXYZ".data

/-- One entry of the world-manufacturer map: a region name and a list of
(character-code set, country name) pairs. -/
structure WmEntry where
  region : String
  countries : List (List Char × String)
deriving DecidableEq

/-- Modelled from the spec: `WORLD_MANUFACTURER_MAP` from the missing
`libvin/static.py` - keyed by the first VIN character, holding a region and
a mapping from character-code sets to country names.  A representative
fragment; characters outside it have no entry (Python raises `KeyError`).
The entry for 7 has no code set containing 7, exercising the
country-level "Unknown" fallback. -/
def WORLD_MANUFACTURER_MAP (c : Char) : Option WmEntry :=
  if c = '1' then some ⟨"North America", [("145".data, "United States")]⟩
  else if c = '2' then some ⟨"North America", [("2".data, "Canada")]⟩
  else if c = '3' then some ⟨"North America", [("3".data, "Mexico")]⟩
  else if c = '7' then some ⟨"Oceania", [("6".data, "Australia")]⟩
  else if c = '9' then some ⟨"South America", [("9".data, "Brazil")]⟩
  else if c = 'J' then some ⟨"Asia", [("J".data, "Japan")]⟩
  else if c = 'W' then some ⟨"Europe", [("W".data, "Germany")]⟩
  else none

/-- Modelled from the spec: `WMI_MAP` from the missing `libvin/static.py`,
mapping 3- and 2-character WMI prefixes to manufacturer names.  A
representative fragment; unmapped prefixes have no entry. -/
def WMI_MAP : List (List Char × String) :=
  [("1HG".data, "Honda"), ("9BW".data, "Volkswagen do Brasil"), ("1G".data, "General Motors")]

/-- Membership lookup in `WMI_MAP` (Python `k in WMI_MAP` / `WMI_MAP[k]`). -/
def wmiLookup (k : List Char) : Option String :=
  (WMI_MAP.find? (fun p => p.1 == k)).map Prod.snd

/-- Modelled from the spec: `YEARS_CODES_PRE_2010` from the missing
`libvin/static.py` - the 1980-2009 model-year table keyed by the position-9
code character (letters excluding I, O, Q, U, Z; then digits 1-9). -/
def YEARS_CODES_PRE_2010 : List (Char × Nat) :=
  [('A', 1980), ('B', 1981), ('C', 1982), ('D', 1983), ('E', 1984), ('F', 1985),
   ('G', 1986), ('H', 1987), ('J', 1988), ('K', 1989), ('L', 1990), ('M', 1991),
   ('N', 1992), ('P', 1993), ('R', 1994), ('S', 1995), ('T', 1996), ('V', 1997),
   ('W', 1998), ('X', 1999), ('Y', 2000),
   ('1', 2001), ('2', 2002), ('3', 2003), ('4', 2004), ('5', 2005), ('6', 2006),
   ('7', 2007), ('8', 2008), ('9', 2009)]

/-- Modelled from the spec: `YEARS_CODES_PRE_2040` from the missing
`libvin/static.py` - the 2010-2039 model-year table, same key set as the
pre-2010 table shifted by thirty years. -/
def YEARS_CODES_PRE_2040 : List (Char × Nat) :=
  [('A', 2010), ('B', 2011), ('C', 2012), ('D', 2013), ('E', 2014), ('F', 2015),
   ('G', 2016), ('H', 2017), ('J', 2018), ('K', 2019), ('L', 2020), ('M', 2021),
   ('N', 2022), ('P', 2023), ('R', 2024), ('S', 2025), ('T', 2026), ('V', 2027),
   ('W', 2028), ('X', 2029), ('Y', 2030),
   ('1', 2031), ('2', 2032), ('3', 2033), ('4', 2034), ('5', 2035), ('6', 2036),
   ('7', 2037), ('8', 2038), ('9', 2039)]

/-- Modelled from the spec: `YEARS_CODES_BRAZIL` from the missing
`libvin/static.py` - the Brazil-specific model-year table keyed by the
position-9 character; its exact contents are not given by the spec, so it is
modelled as the merged 2001-2030 cycle (digits 1-9 then letters). -/
def YEARS_CODES_BRAZIL : List (Char × Nat) :=
  [('1', 2001), ('2', 2002), ('3', 2003), ('4', 2004), ('5', 2005), ('6', 2006),
   ('7', 2007), ('8', 2008), ('9', 2009),
   ('A', 2010), ('B', 2011), ('C', 2012), ('D', 2013), ('E', 2014), ('F', 2015),
   ('G', 2016), ('H', 2017), ('J', 2018), ('K', 2019), ('L', 2020), ('M', 2021),
   ('N', 2022), ('P', 2023), ('R', 2024), ('S', 2025), ('T', 2026), ('V', 2027),
   ('W', 2028), ('X', 2029), ('Y', 2030)]

/-- Python `TABLE[c]` on a year-code dict: the year, or `KeyError`. -/
def lookupYear (t : List (Char × Nat)) (c : Char) : Except PyError Nat :=
  match t.find? (fun p => p.1 == c) with
  | some p => Except.ok p.2
  | none => Except.error PyError.keyError

/-- The `Vin` object: it stores the uppercase-normalized VIN string. -/
structure Vin where
  vin : List Char

/-- `Vin.__init__`: `self.vin = vin.upper()`. -/
def mkVin (s : List Char) : Vin := ⟨pyUpper s⟩

/-- `Vin.country`: the entry of `WORLD_MANUFACTURER_MAP` at `vin[0]`, then
the first code set containing `vin[0]` gives the country, else "Unknown". -/
def Vin.country (v : Vin) : Except PyError String :=
  match pyIndex v.vin 0 with
  | Except.error e => Except.error e
  | Except.ok c0 =>
    match WORLD_MANUFACTURER_MAP c0 with
    | none => Except.error PyError.keyError
    | some entry =>
      match entry.countries.find? (fun p => p.1.contains c0) with
      | some p => Except.ok p.2
      | none => Except.ok "Unknown"

/-- `Vin.region`: the region field of `WORLD_MANUFACTURER_MAP[vin[0]]`
(no "Unknown" fallback in the source). -/
def Vin.region (v : Vin) : Except PyError String :=
  match pyIndex v.vin 0 with
  | Except.error e => Except.error e
  | Except.ok c0 =>
    match WORLD_MANUFACTURER_MAP c0 with
    | none => Except.error PyError.keyError
    | some entry => Except.ok entry.region

/-- `Vin.is_pre_2010`: `self.vin[6].isdigit()`. -/
def Vin.is_pre_2010 (v : Vin) : Except PyError Bool :=
  match pyIndex v.vin 6 with
  | Except.error e => Except.error e
  | Except.ok c => Except.ok c.isDigit

/-- The check-digit products `[VIN_WEIGHT[i] * VIN_TRANSLATION[j] for i, j in
enumerate(self.vin)]`: each character is translated (KeyError when it has no
translation value) and multiplied by the positional weight. -/
def checksumProducts : List Char → List Nat → Except PyError (List Nat)
  | [], _ => Except.ok []
  | _ :: _, [] => Except.error PyError.indexError
  | c :: cs, w :: ws =>
    match VIN_TRANSLATION c with
    | none => Except.error PyError.keyError
    | some t =>
      match checksumProducts cs ws with
      | Except.error e => Except.error e
      | Except.ok rest => Except.ok (w * t :: rest)

/-- The expected check character: `'X'` when the sum mod 11 is 10, else the
digit character of the sum mod 11. -/
def checkDigitChar (n : Nat) : Char :=
  if n = 10 then 'X' else Char.ofNat (48 + n)

/-- `Vin.is_valid`: length gate, I/O/Q gate, position-9 gate, then the ISO
3779 checksum comparison against the character at position 8. -/
def Vin.is_valid (v : Vin) : Except PyError Bool :=
  if v.vin.length ≠ 17 then Except.ok false
  else if v.vin.any (fun x => "IOQ".data.contains x) then Except.ok false
  else
    match pyIndex v.vin 9 with
    | Except.error e => Except.error e
    | Except.ok c9 =>
      if "UZ0".data.contains c9 then Except.ok false
      else
        match checksumProducts v.vin VIN_WEIGHT with
        | Except.error e => Except.error e
        | Except.ok products =>
          match pyIndex v.vin 8 with
          | Except.error e => Except.error e
          | Except.ok c8 =>
            if c8 ≠ checkDigitChar (products.sum % 11) then Except.ok false
            else Except.ok true

/-- `Vin.less_than_500_built_per_year`: `int(self.vin[2]) is 9`, with only
`ValueError` caught and turned into `False`. -/
def Vin.less_than_500_built_per_year (v : Vin) : Except PyError Bool :=
  match pyIndex v.vin 2 with
  | Except.error e => Except.error e
  | Except.ok c =>
    match pyIntOfChar c with
    | Except.ok n => Except.ok (decide (n = 9))
    | Except.error PyError.valueError => Except.ok false
    | Except.error e => Except.error e

/-- `Vin.vis`: `self.vin[-8:]`. -/
def Vin.vis (v : Vin) : List Char := lastN v.vin 8

/-- `Vin.vds`: `self.vin[3:9]`. -/
def Vin.vds (v : Vin) : List Char := (v.vin.drop 3).take 6

/-- `Vin.vsn`: the last 3 characters when `less_than_500_built_per_year`,
else the last 6. -/
def Vin.vsn (v : Vin) : Except PyError (List Char) :=
  match v.less_than_500_built_per_year with
  | Except.error e => Except.error e
  | Except.ok b => if b then Except.ok (lastN v.vin 3) else Except.ok (lastN v.vin 6)

/-- `Vin.wmi`: `self.vin[0:3]`. -/
def Vin.wmi (v : Vin) : List Char := v.vin.take 3

/-- `Vin.manufacturer`: the 3-character WMI prefix in `WMI_MAP`, else the
2-character prefix, else "Unknown". -/
def Vin.manufacturer (v : Vin) : String :=
  match wmiLookup (v.wmi.take 3) with
  | some m => m
  | none =>
    match wmiLookup (v.wmi.take 2) with
    | some m => m
    | none => "Unknown"

/-- `Vin.year`: the Brazil table when `country == "Brazil"`, else the
pre-2010 table when `is_pre_2010`, else the 2010-2039 table, indexed by the
character at position 9. -/
def Vin.year (v : Vin) : Except PyError Nat :=
  match v.country with
  | Except.error e => Except.error e
  | Except.ok c =>
    if c = "Brazil" then
      match pyIndex v.vin 9 with
      | Except.error e => Except.error e
      | Except.ok c9 => lookupYear YEARS_CODES_BRAZIL c9
    else
      match v.is_pre_2010 with
      | Except.error e => Except.error e
      | Except.ok pre =>
        match pyIndex v.vin 9 with
        | Except.error e => Except.error e
        | Except.ok c9 =>
          if pre then lookupYear YEARS_CODES_PRE_2010 c9
          else lookupYear YEARS_CODES_PRE_2040 c9

/-- The year-code table `Vin.year` selects (resolving `country`, and
`is_pre_2010` in the non-Brazil branch, exactly as `Vin.year` does). -/
def Vin.selectedYearTable (v : Vin) : Except PyError (List (Char × Nat)) :=
  match v.country with
  | Except.error e => Except.error e
  | Except.ok c =>
    if c = "Brazil" then Except.ok YEARS_CODES_BRAZIL
    else
      match v.is_pre_2010 with
      | Except.error e => Except.error e
      | Except.ok pre =>
        Except.ok (if pre then YEARS_CODES_PRE_2010 else YEARS_CODES_PRE_2040)

/-! ### General lemmas about the embedding -/

instance {ε α : Type} [DecidableEq ε] [DecidableEq α] : DecidableEq (Except ε α) :=
  fun a b =>
    match a, b with
    | Except.ok x, Except.ok y =>
      if h : x = y then isTrue (by rw [h]) else isFalse (fun he => h (Except.ok.inj he))
    | Except.error x, Except.error y =>
      if h : x = y then isTrue (by rw [h]) else isFalse (fun he => h (Except.error.inj he))
    | Except.ok _, Except.error _ => isFalse (fun he => Except.noConfusion he)
    | Except.error _, Except.ok _ => isFalse (fun he => Except.noConfusion he)

theorem pyUpper_length (s : List Char) : (pyUpper s).length = s.length :=
  List.length_map s Char.toUpper

theorem pyIndex_ok (s : List Char) (i : Nat) (h : i < s.length) :
    pyIndex s i = Except.ok (s.getD i ' ') := by
  unfold pyIndex
  rw [List.getD_eq_getElem?_getD, List.get?_eq_getElem?, List.getElem?_eq_getElem h]
  rfl

theorem pyIndex_err (s : List Char) (i : Nat) (h : s.length ≤ i) :
    pyIndex s i = Except.error PyError.indexError := by
  unfold pyIndex
  rw [List.get?_eq_none.mpr h]

theorem digit_toNat_eq_nine {c : Char} (h : c.isDigit = true) :
    (c.toNat - 48 = 9) ↔ c = '9' := by
  simp only [Char.isDigit, Bool.and_eq_true, decide_eq_true_eq] at h
  have n1 : 48 ≤ c.val.toNat := h.1
  have ht : c.toNat = c.val.toNat := rfl
  rw [ht]
  constructor
  · intro hn
    have hv : c.val.toNat = 57 := by omega
    exact Char.ext (UInt32.ext_iff.mpr hv)
  · intro hc
    subst hc
    rfl

theorem less500_eq (v : Vin) (c : Char) (h : pyIndex v.vin 2 = Except.ok c) :
    v.less_than_500_built_per_year = Except.ok (decide (c = '9')) := by
  by_cases hd : c.isDigit = true
  · have h9 : decide (c.toNat - 48 = 9) = decide (c = '9') :=
      decide_eq_decide.mpr (digit_toNat_eq_nine hd)
    simp [Vin.less_than_500_built_per_year, h, pyIntOfChar, hd, h9]
  · have hc : ¬ c = '9' := fun he => hd (by simp [he])
    simp [Vin.less_than_500_built_per_year, h, pyIntOfChar, hd, hc]

/-! ### C4: the length gate of is_valid -/

/-- C4: for every input whose length is not 17, `is_valid` returns `false`;
the length gate fires first, so no indexed access happens and no error is
raised on short input. -/
theorem is_valid_length_gate (s : List Char) (h : s.length ≠ 17) :
    (mkVin s).is_valid = Except.ok false := by
  have hl : (pyUpper s).length ≠ 17 := by rw [pyUpper_length]; exact h
  simp [mkVin, Vin.is_valid, hl]

/-- C4 witness: `is_valid "SHORT"` is `false`. -/
theorem is_valid_length_gate_witness :
    "SHORT".data.length ≠ 17 ∧ (mkVin "SHORT".data).is_valid = Except.ok false :=
  ⟨by decide, is_valid_length_gate _ (by decide)⟩

/-! ### C3: the structural substrings on the reference VIN -/

/-- C3 counterexample: `vis` of "1HGCM82633A004352" is not "33A004352" -
the source returns the last 8 characters, and that string has 9. -/
theorem vis_example_ne :
    (mkVin "1HGCM82633A004352".data).vis ≠ "33A004352".data := by decide

/-- C3 amended: on "1HGCM82633A004352", `wmi` is "1HG", `vds` is "CM8263",
and `vis` (the last 8 characters) is "3A004352". -/
theorem wmi_vds_vis_example :
    (mkVin "1HGCM82633A004352".data).wmi = "1HG".data ∧
    (mkVin "1HGCM82633A004352".data).vds = "CM8263".data ∧
    (mkVin "1HGCM82633A004352".data).vis = "3A004352".data :=
  ⟨rfl, rfl, rfl⟩

/-! ### C7: the I/O/Q gate of is_valid -/

/-- C7: every 17-character input containing the letter I, O, or Q at any
position is reported invalid, regardless of its checksum. -/
theorem is_valid_ioq_gate (s : List Char) (h17 : s.length = 17)
    (h : 'I' ∈ s ∨ 'O' ∈ s ∨ 'Q' ∈ s) :
    (mkVin s).is_valid = Except.ok false := by
  have hl : (pyUpper s).length = 17 := by rw [pyUpper_length]; exact h17
  have hany : (pyUpper s).any (fun x => "IOQ".data.contains x) = true := by
    apply List.any_eq_true.mpr
    rcases h with h | h | h
    · exact ⟨'I', List.mem_map_of_mem Char.toUpper h, by decide⟩
    · exact ⟨'O', List.mem_map_of_mem Char.toUpper h, by decide⟩
    · exact ⟨'Q', List.mem_map_of_mem Char.toUpper h, by decide⟩
  show Vin.is_valid ⟨pyUpper s⟩ = Except.ok false
  unfold Vin.is_valid
  rw [hl, hany]
  norm_num

/-- C7 witness: a 17-character string starting with I is invalid. -/
theorem is_valid_ioq_gate_witness :
    (mkVin "IHGCM82633A004352".data).is_valid = Except.ok false :=
  is_valid_ioq_gate _ (by decide) (Or.inl (by decide))

/-! ### C2: error behavior of country, region and manufacturer -/

/-- C2 counterexample: `country` on the empty string raises (IndexError from
`vin[0]`) instead of returning a string. -/
theorem country_empty_error :
    (mkVin []).country = Except.error PyError.indexError := rfl

/-- C2 amended: `manufacturer` always returns a string, "Unknown" when
neither the 3- nor the 2-character prefix is mapped; `country` and `region`
raise an IndexError on empty input and a KeyError when the position-0
character has no entry in the world-manufacturer map. -/
theorem soft_accessor_amended :
    (∀ s : List Char, wmiLookup ((pyUpper s).take 3) = none →
        wmiLookup ((pyUpper s).take 2) = none →
        (mkVin s).manufacturer = "Unknown") ∧
    ((mkVin []).country = Except.error PyError.indexError ∧
      (mkVin []).region = Except.error PyError.indexError) ∧
    (∀ s : List Char, ∀ c0 : Char, pyIndex (pyUpper s) 0 = Except.ok c0 →
        WORLD_MANUFACTURER_MAP c0 = none →
        (mkVin s).country = Except.error PyError.keyError ∧
        (mkVin s).region = Except.error PyError.keyError) := by
  refine ⟨fun s h3 h2 => ?_, ⟨rfl, rfl⟩, fun s c0 hc0 hmap => ?_⟩
  · have e3 : ((pyUpper s).take 3).take 3 = (pyUpper s).take 3 := by
      rw [List.take_take]
      norm_num
    have e2 : ((pyUpper s).take 3).take 2 = (pyUpper s).take 2 := by
      rw [List.take_take]
      norm_num
    simp [Vin.manufacturer, mkVin, Vin.wmi, e3, e2, h3, h2]
  · constructor
    · simp [Vin.country, mkVin, hc0, hmap]
    · simp [Vin.region, mkVin, hc0, hmap]

/-- C2 witness: an unmapped WMI resolves to "Unknown", and an unmapped
position-0 character makes `country` raise a KeyError. -/
theorem soft_accessor_amended_witness :
    (mkVin "XYZ".data).manufacturer = "Unknown" ∧
    (mkVin "*AB".data).country = Except.error PyError.keyError :=
  ⟨soft_accessor_amended.1 _ (by decide) (by decide),
   (soft_accessor_amended.2.2 _ '*' (by decide) (by decide)).1⟩

/-! ### C9: error behavior of less_than_500_built_per_year -/

/-- C9 counterexample: on the 2-character input "AB",
`less_than_500_built_per_year` raises (IndexError from `vin[2]`, which the
`except ValueError` handler does not catch) instead of returning `false`. -/
theorem less500_short_error :
    (mkVin "AB".data).less_than_500_built_per_year = Except.error PyError.indexError := rfl

/-- C9 amended: when position 2 exists, `less_than_500_built_per_year`
returns a boolean - `true` exactly when that character is the digit 9, with
a non-numeric character (a `ValueError` in `int`) yielding `false`; when the
input is shorter than 3 characters it raises an IndexError. -/
theorem less500_amended :
    (∀ s : List Char, ∀ c : Char, pyIndex (pyUpper s) 2 = Except.ok c →
        (mkVin s).less_than_500_built_per_year = Except.ok (decide (c = '9'))) ∧
    (∀ s : List Char, s.length < 3 →
        (mkVin s).less_than_500_built_per_year = Except.error PyError.indexError) := by
  constructor
  · exact fun s c h => less500_eq (mkVin s) c h
  · intro s h
    have hl : (pyUpper s).length ≤ 2 := by rw [pyUpper_length]; omega
    have he := pyIndex_err (pyUpper s) 2 hl
    simp [Vin.less_than_500_built_per_year, mkVin, he]

/-- C9 witness: position 2 equal to 9 gives `true`, a letter there gives
`false`, and a too-short input gives an IndexError. -/
theorem less500_amended_witness :
    (mkVin "1H9".data).less_than_500_built_per_year = Except.ok true ∧
    (mkVin "1HG".data).less_than_500_built_per_year = Except.ok false ∧
    (mkVin "AB".data).less_than_500_built_per_year = Except.error PyError.indexError := by
  refine ⟨?_, ?_, less500_amended.2 "AB".data (by decide)⟩
  · have h := less500_amended.1 "1H9".data '9' (by decide)
    simpa using h
  · have h := less500_amended.1 "1HG".data 'G' (by decide)
    simpa using h

/-! ### C8: the length of vsn -/

/-- C8: for every 17-character input, `vsn` is the last 3 characters of the
normalized VIN when its character at position 2 is the digit 9 (the
low-volume-manufacturer flag), and the last 6 characters otherwise. -/
theorem vsn_length_rule (s : List Char) (h17 : s.length = 17) :
    (mkVin s).vsn = Except.ok
      (if (pyUpper s).getD 2 ' ' = '9' then lastN (pyUpper s) 3
       else lastN (pyUpper s) 6) := by
  have h2 : (2 : Nat) < (pyUpper s).length := by rw [pyUpper_length]; omega
  have hidx := pyIndex_ok (pyUpper s) 2 h2
  have h500 := less500_eq ⟨pyUpper s⟩ ((pyUpper s).getD 2 ' ') hidx
  simp only [Vin.vsn, mkVin, h500, decide_eq_true_eq]
  rw [List.getD_eq_getElem?_getD]
  split <;> rfl

/-- C8 witness: both branches on concrete 17-character strings. -/
theorem vsn_length_rule_witness :
    (mkVin "1H9CM82633A004352".data).vsn = Except.ok "352".data ∧
    (mkVin "1HGCM82633A004352".data).vsn = Except.ok "004352".data := by
  constructor
  · have h := vsn_length_rule "1H9CM82633A004352".data (by decide)
    rw [h]
    decide
  · have h := vsn_length_rule "1HGCM82633A004352".data (by decide)
    rw [h]
    decide

/-! ### C5 and C6: year-table selection and missing-code failure -/

theorem year_eq (v : Vin) :
    v.year = Except.bind v.selectedYearTable
      (fun t => Except.bind (pyIndex v.vin 9) (fun c9 => lookupYear t c9)) := by
  cases hc : v.country with
  | error e => simp [Vin.year, Vin.selectedYearTable, hc, Except.bind]
  | ok c =>
    by_cases hb : c = "Brazil"
    · cases h9 : pyIndex v.vin 9 <;>
        simp [Vin.year, Vin.selectedYearTable, hc, hb, h9, Except.bind]
    · cases hp : v.is_pre_2010 with
      | error e => simp [Vin.year, Vin.selectedYearTable, hc, hb, hp, Except.bind]
      | ok pre =>
        cases h9 : pyIndex v.vin 9 with
        | error e => simp [Vin.year, Vin.selectedYearTable, hc, hb, hp, h9, Except.bind]
        | ok c9 =>
          cases pre <;>
            simp [Vin.year, Vin.selectedYearTable, hc, hb, hp, h9, Except.bind]

/-- C5: when `country` resolves to "Brazil", `year` looks up the Brazil
table at position 9 with no condition on position 6; for any other resolved
country, it looks up the 1980-2009 table when position 6 is a digit and the
2010-2039 table otherwise. -/
theorem year_table_selection :
    (∀ s : List Char, (mkVin s).country = Except.ok "Brazil" →
        (mkVin s).year =
          Except.bind (pyIndex (mkVin s).vin 9)
            (fun c9 => lookupYear YEARS_CODES_BRAZIL c9)) ∧
    (∀ s : List Char, ∀ r : String, ∀ c6 : Char,
        (mkVin s).country = Except.ok r → r ≠ "Brazil" →
        pyIndex (mkVin s).vin 6 = Except.ok c6 →
        (mkVin s).year =
          Except.bind (pyIndex (mkVin s).vin 9)
            (fun c9 => lookupYear
              (if c6.isDigit then YEARS_CODES_PRE_2010 else YEARS_CODES_PRE_2040) c9)) := by
  constructor
  · intro s hc
    cases h9 : pyIndex (mkVin s).vin 9 <;> simp [Vin.year, hc, h9, Except.bind]
  · intro s r c6 hc hr h6
    have hpre : (mkVin s).is_pre_2010 = Except.ok c6.isDigit := by
      simp [Vin.is_pre_2010, h6]
    cases h9 : pyIndex (mkVin s).vin 9 <;> cases hd : c6.isDigit <;>
      simp [Vin.year, hc, hr, hpre, h9, hd, Except.bind]

/-- C5 witness: a Brazil-mapped VIN whose position-6 character is the
letter D still resolves through the Brazil table (code 1 gives 2001, not
2031 as the 2010-2039 table would). -/
theorem year_table_selection_witness :
    (mkVin "9BWAHYDEF1A000001".data).country = Except.ok "Brazil" ∧
    ("9BWAHYDEF1A000001".data.getD 6 ' ').isDigit = false ∧
    (mkVin "9BWAHYDEF1A000001".data).year = Except.ok 2001 := by
  have h := year_table_selection.1 "9BWAHYDEF1A000001".data (by decide)
  refine ⟨by decide, by decide, ?_⟩
  rw [h]
  decide

/-- C6: whenever the character at position 9 has no entry in the year-code
table selected for the input, `year` fails with a KeyError (the Python dict
lookup), not with a default or sentinel value. -/
theorem year_missing_code_error (s : List Char) (t : List (Char × Nat)) (c9 : Char)
    (hsel : (mkVin s).selectedYearTable = Except.ok t)
    (hc9 : pyIndex (mkVin s).vin 9 = Except.ok c9)
    (hmiss : t.find? (fun p => p.1 == c9) = none) :
    (mkVin s).year = Except.error PyError.keyError := by
  rw [year_eq, hsel]
  simp [Except.bind, hc9, lookupYear, hmiss]

/-- C6 witness: position 9 equal to U (never a model-year code) makes
`year` raise a KeyError on an otherwise decodable VIN. -/
theorem year_missing_code_error_witness :
    (mkVin "1HGCM8263UA004352".data).year = Except.error PyError.keyError :=
  year_missing_code_error _ YEARS_CODES_PRE_2010 'U' (by decide) (by decide) (by decide)

/-! ### C1 and C10: the checksum characterization and partiality of is_valid -/

theorem alpha_upper : ∀ c ∈ VIN_CHECKSUM_ALPHABET, c.toUpper = c := by decide

theorem alpha_translation :
    ∀ c ∈ VIN_CHECKSUM_ALPHABET, (VIN_TRANSLATION c).isSome = true := by decide

theorem alpha_not_ioq :
    ∀ c ∈ VIN_CHECKSUM_ALPHABET, "IOQ".data.contains c = false := by decide

theorem pyUpper_id : ∀ s : List Char, (∀ c ∈ s, c ∈ VIN_CHECKSUM_ALPHABET) → pyUpper s = s
  | [], _ => rfl
  | c :: cs, h => by
    have hc := alpha_upper c (h c (List.mem_cons_self c cs))
    have ht := pyUpper_id cs (fun x hx => h x (List.mem_cons_of_mem c hx))
    simp only [pyUpper, List.map_cons] at ht ⊢
    rw [hc, ht]

theorem checksumProducts_ok :
    ∀ (s : List Char) (ws : List Nat),
      (∀ c ∈ s, (VIN_TRANSLATION c).isSome = true) → s.length ≤ ws.length →
      checksumProducts s ws =
        Except.ok (List.zipWith (fun w c => w * (VIN_TRANSLATION c).getD 0) ws s)
  | [], ws, _, _ => by cases ws <;> simp [checksumProducts]
  | c :: cs, [], _, hlen => by simp at hlen
  | c :: cs, w :: ws, h, hlen => by
    have hc := h c (List.mem_cons_self c cs)
    obtain ⟨t, ht⟩ := Option.isSome_iff_exists.mp hc
    have hrest := checksumProducts_ok cs ws (fun x hx => h x (List.mem_cons_of_mem c hx))
      (Nat.le_of_succ_le_succ hlen)
    simp [checksumProducts, ht, hrest]

theorem contains_uz0_false (c : Char) (h1 : c ≠ 'U') (h2 : c ≠ 'Z') (h3 : c ≠ '0') :
    ("UZ0".data.contains c) = false := by
  have he : "UZ0".data = ['U', 'Z', '0'] := rfl
  rw [he, List.contains_eq_any_beq]
  simp [h1, h2, h3]

theorem is_valid_core (s : List Char) (h17 : s.length = 17)
    (halpha : ∀ c ∈ s, c ∈ VIN_CHECKSUM_ALPHABET)
    (h9 : s.getD 9 ' ' ∉ (['U', 'Z', '0'] : List Char)) :
    Vin.is_valid ⟨s⟩ = Except.ok
      (decide (s.getD 8 ' ' = checkDigitChar
        ((List.zipWith (fun w c => w * (VIN_TRANSLATION c).getD 0)
          VIN_WEIGHT s).sum % 11))) := by
  have hi9 : pyIndex s 9 = Except.ok (s.getD 9 ' ') := pyIndex_ok s 9 (by omega)
  have hi8 : pyIndex s 8 = Except.ok (s.getD 8 ' ') := pyIndex_ok s 8 (by omega)
  have hprod := checksumProducts_ok s VIN_WEIGHT
    (fun c hc => alpha_translation c (halpha c hc)) (by rw [h17]; decide)
  have hany : s.any (fun x => "IOQ".data.contains x) = false := by
    apply List.any_eq_false.mpr
    intro x hx
    rw [alpha_not_ioq x (halpha x hx)]
    simp
  have h9' : s.getD 9 ' ' ≠ 'U' ∧ s.getD 9 ' ' ≠ 'Z' ∧ s.getD 9 ' ' ≠ '0' := by
    refine ⟨?_, ?_, ?_⟩ <;> intro he <;> exact h9 (by rw [he]; decide)
  have hgate : ("UZ0".data.contains (s.getD 9 ' ')) = false :=
    contains_uz0_false _ h9'.1 h9'.2.1 h9'.2.2
  unfold Vin.is_valid
  split
  next h => exact absurd h17 h
  next =>
    split
    next hio =>
      rw [hany] at hio
      exact Bool.noConfusion hio
    next =>
      split
      next e he =>
        rw [hi9] at he
        exact Except.noConfusion he
      next c9 hc9 =>
        rw [hi9] at hc9
        have hc9' := Except.ok.inj hc9
        subst hc9'
        split
        next hg =>
          rw [hgate] at hg
          exact Bool.noConfusion hg
        next =>
          split
          next e hpe =>
            rw [hprod] at hpe
            exact Except.noConfusion hpe
          next products hpok =>
            rw [hprod] at hpok
            have hp := Except.ok.inj hpok
            subst hp
            split
            next e h8e =>
              rw [hi8] at h8e
              exact Except.noConfusion h8e
            next c8 h8ok =>
              rw [hi8] at h8ok
              have h8 := Except.ok.inj h8ok
              subst h8
              split
              next hne => rw [decide_eq_false hne]
              next hne => rw [decide_eq_true (not_not.mp hne)]

theorem mutated_sum (c : Char) :
    (List.zipWith (fun w x => w * (VIN_TRANSLATION x).getD 0) VIN_WEIGHT
      ("1HGCM82633A004352".data.set 8 c)).sum = 311 := by
  have hset : "1HGCM82633A004352".data.set 8 c
      = "1HGCM826".data ++ c :: "3A004352".data := rfl
  have hw : VIN_WEIGHT
      = ([8, 7, 6, 5, 4, 3, 2, 10] : List Nat) ++ 0 :: [9, 8, 7, 6, 5, 4, 3, 2] := rfl
  rw [hset, hw, List.zipWith_append _ _ _ _ _ (by decide), List.sum_append]
  have h1 : (List.zipWith (fun w x => w * (VIN_TRANSLATION x).getD 0)
      ([8, 7, 6, 5, 4, 3, 2, 10] : List Nat) "1HGCM826".data).sum = 225 := by decide
  have h2 : (List.zipWith (fun w x => w * (VIN_TRANSLATION x).getD 0)
      ([9, 8, 7, 6, 5, 4, 3, 2] : List Nat) "3A004352".data).sum = 86 := by decide
  have h2' : (List.zipWith (fun w x => w * (VIN_TRANSLATION x).getD 0)
      (0 :: [9, 8, 7, 6, 5, 4, 3, 2] : List Nat) (c :: "3A004352".data)).sum
      = 0 * (VIN_TRANSLATION c).getD 0 +
        (List.zipWith (fun w x => w * (VIN_TRANSLATION x).getD 0)
          ([9, 8, 7, 6, 5, 4, 3, 2] : List Nat) "3A004352".data).sum := by
    rw [List.zipWith_cons_cons, List.sum_cons]
  rw [h1, h2', h2, Nat.zero_mul]

/-- C1: for every 17-character string over the checksum alphabet whose
position-9 character is not U, Z or 0, `is_valid` is `true` exactly when the
character at position 8 equals the expected check character (weighted sum of
translation values mod 11, rendered as X for 10 and as the digit otherwise);
in particular "1HGCM82633A004352" is valid and any in-alphabet mutation of
its position-8 character is invalid. -/
theorem is_valid_checksum_characterization :
    (∀ s : List Char, s.length = 17 → (∀ c ∈ s, c ∈ VIN_CHECKSUM_ALPHABET) →
        s.getD 9 ' ' ∉ (['U', 'Z', '0'] : List Char) →
        ((mkVin s).is_valid = Except.ok true ↔
          s.getD 8 ' ' = checkDigitChar
            ((List.zipWith (fun w c => w * (VIN_TRANSLATION c).getD 0)
              VIN_WEIGHT s).sum % 11))) ∧
    (mkVin "1HGCM82633A004352".data).is_valid = Except.ok true ∧
    (∀ c : Char, c ∈ VIN_CHECKSUM_ALPHABET → c ≠ '3' →
        (mkVin ("1HGCM82633A004352".data.set 8 c)).is_valid = Except.ok false) := by
  have main : ∀ s : List Char, s.length = 17 → (∀ c ∈ s, c ∈ VIN_CHECKSUM_ALPHABET) →
      s.getD 9 ' ' ∉ (['U', 'Z', '0'] : List Char) →
      (mkVin s).is_valid = Except.ok
        (decide (s.getD 8 ' ' = checkDigitChar
          ((List.zipWith (fun w c => w * (VIN_TRANSLATION c).getD 0)
            VIN_WEIGHT s).sum % 11))) := by
    intro s h17 halpha h9
    have hup : pyUpper s = s := pyUpper_id s halpha
    show Vin.is_valid ⟨pyUpper s⟩ = _
    rw [hup]
    exact is_valid_core s h17 halpha h9
  refine ⟨fun s h17 halpha h9 => ?_, by decide, fun c hc hne => ?_⟩
  · rw [main s h17 halpha h9]
    simp
  · have halpha' : ∀ x ∈ "1HGCM82633A004352".data.set 8 c, x ∈ VIN_CHECKSUM_ALPHABET := by
      intro x hx
      rcases List.mem_or_eq_of_mem_set hx with hx' | hx'
      · exact (by decide :
          ∀ y ∈ "1HGCM82633A004352".data, y ∈ VIN_CHECKSUM_ALPHABET) x hx'
      · rw [hx']
        exact hc
    have h17' : ("1HGCM82633A004352".data.set 8 c).length = 17 := by
      rw [List.length_set]
      decide
    have h9' : ("1HGCM82633A004352".data.set 8 c).getD 9 ' '
        ∉ (['U', 'Z', '0'] : List Char) := by
      rw [List.getD_eq_getElem?_getD, List.getElem?_set_ne (by norm_num : (8 : Nat) ≠ 9)]
      decide
    rw [main _ h17' halpha' h9', mutated_sum c]
    have hg : ("1HGCM82633A004352".data.set 8 c).getD 8 ' ' = c := by
      rw [List.getD_eq_getElem?_getD, List.getElem?_set]
      simp
    rw [hg]
    have hch : checkDigitChar (311 % 11) = '3' := by decide
    rw [hch]
    simp [hne]

/-- C1 witness: the reference VIN validates, and mutating its position-8
character to 4 invalidates it. -/
theorem is_valid_checksum_characterization_witness :
    (mkVin "1HGCM82633A004352".data).is_valid = Except.ok true ∧
    (mkVin ("1HGCM82633A004352".data.set 8 '4')).is_valid = Except.ok false :=
  ⟨(is_valid_checksum_characterization.1 "1HGCM82633A004352".data (by decide) (by decide)
      (by decide)).mpr (by decide),
    is_valid_checksum_characterization.2.2 '4' (by decide) (by decide)⟩

/-- C10: `is_valid` is not total over arbitrary 17-character strings: an
input passing the length, I/O/Q and position-9 gates whose character has no
translation value raises a KeyError in the checksum; it is guaranteed to
return a boolean when every character of the normalized VIN has a
translation value. -/
theorem is_valid_partiality :
    (mkVin "*HGCM82633A004352".data).is_valid = Except.error PyError.keyError ∧
    (∀ s : List Char, (∀ c ∈ pyUpper s, (VIN_TRANSLATION c).isSome = true) →
        ∃ b, (mkVin s).is_valid = Except.ok b) := by
  refine ⟨rfl, fun s h => ?_⟩
  show ∃ b, Vin.is_valid ⟨pyUpper s⟩ = Except.ok b
  unfold Vin.is_valid
  split
  next => exact ⟨false, rfl⟩
  next h17 =>
    have hlen : (pyUpper s).length = 17 := not_not.mp h17
    split
    next => exact ⟨false, rfl⟩
    next =>
      split
      next e he =>
        rw [pyIndex_ok (pyUpper s) 9 (by omega)] at he
        exact Except.noConfusion he
      next c9 hc9 =>
        split
        next => exact ⟨false, rfl⟩
        next =>
          split
          next e hpe =>
            rw [checksumProducts_ok (pyUpper s) VIN_WEIGHT h (by rw [hlen]; decide)] at hpe
            exact Except.noConfusion hpe
          next products hpok =>
            split
            next e h8e =>
              rw [pyIndex_ok (pyUpper s) 8 (by omega)] at h8e
              exact Except.noConfusion h8e
            next c8 h8ok =>
              split
              next => exact ⟨false, rfl⟩
              next => exact ⟨true, rfl⟩

/-- C10 witness: on a fully translatable input, `is_valid` returns a
boolean. -/
theorem is_valid_partiality_witness :
    ∃ b, (mkVin "1HGCM82633A004352".data).is_valid = Except.ok b :=
  is_valid_partiality.2 "1HGCM82633A004352".data (by decide)
